import Mathlib

/-!
Shallow embedding of `src/src-tauri/src/main.rs` of the tauri-tasks
repository, and proofs about its bootstrap behavior.

The source file is:

  #![cfg_attr(not(debug_assertions), windows_subsystem = "windows")]

  use tauri::Manager;
  use tauri_plugin_sql;

  fn main() {
    tauri::Builder::default()
      .plugin(tauri_plugin_sql::Builder::default().build())
      .run(tauri::generate_context!())
      .expect("error while running tauri application");
  }

The framework (`tauri`) and the SQL plugin (`tauri_plugin_sql`) are
external dependencies: their internals are opaque, so the framework's
`run` routine and the `Debug` rendering of its error type enter the
embedding as parameters, and the builder state visible to this program is
the list of plugins registered on it.
-/

namespace TauriTasks

/-- Opaque configuration builder of the external relational-storage (SQL)
plugin, `tauri_plugin_sql::Builder`.  The program only ever uses the
default configuration, so no configuration field is visible at this level. -/
structure SqlBuilder where
deriving DecidableEq

/-- `tauri_plugin_sql::Builder::default()`: the zero-argument
default-configuration constructor of the SQL plugin builder. -/
def SqlBuilder.default : SqlBuilder := {}

/-- A plugin value acceptable by the framework's registration interface.
The only plugin this program constructs is the SQL plugin; the value
carries the configuration builder it was built from. -/
inductive Plugin where
  | sql (config : SqlBuilder)
deriving DecidableEq

/-- `tauri_plugin_sql::Builder::build`: produces the plugin instance from
the configuration builder. -/
def SqlBuilder.build (b : SqlBuilder) : Plugin := Plugin.sql b

/-- The framework builder `tauri::Builder`.  The part of its state this
program manipulates is the list of plugins registered on it, in
registration order. -/
structure Builder where
  plugins : List Plugin
deriving DecidableEq

/-- `tauri::Builder::default()`: a fresh builder with no plugin registered. -/
def Builder.default : Builder := ⟨[]⟩

/-- `tauri::Builder::plugin`: registers one more plugin on the builder. -/
def Builder.plugin (b : Builder) (p : Plugin) : Builder :=
  { b with plugins := b.plugins ++ [p] }

/-- The static application context produced by `tauri::generate_context!`.
Its contents are generated by the framework's build tooling and are opaque
to this program. -/
structure Context where
deriving DecidableEq

/-- The value of `tauri::generate_context!()`. -/
def generateContext : Context := {}

/-- The outcome of the process as observable from this code: either a
normal return of a value, or a fatal panic carrying a diagnostic message. -/
inductive Outcome (α : Type) where
  | ok (a : α)
  | panicked (msg : String)
deriving DecidableEq

/-- Whether an outcome is an abnormal termination (a panic, reported to the
OS as a non-zero/abort exit status) rather than a normal return. -/
def Outcome.isAbort {α : Type} : Outcome α → Bool
  | .ok _ => false
  | .panicked _ => true

/-- `Result::expect(msg)`: returns the success value, or panics with the
given message followed by the separator `": "` and the `Debug` rendering
of the error value. -/
def rustExpect {ε α : Type} (fmtDebug : ε → String)
    (r : Except ε α) (msg : String) : Outcome α :=
  match r with
  | .ok a => .ok a
  | .error e => .panicked (msg ++ ": " ++ fmtDebug e)

/-- The embedded `fn main()`: construct the default framework builder,
register the SQL plugin built from its default configuration, generate the
context, invoke the framework's `run` routine, and escalate a failure to a
panic via `expect`.  The external `run` routine and the `Debug` rendering
of its error type are parameters. -/
def main {ε : Type} (fmtDebug : ε → String)
    (run : Builder → Context → Except ε Unit) : Outcome Unit :=
  rustExpect fmtDebug
    (run ((Builder.default).plugin ((SqlBuilder.default).build)) generateContext)
    "error while running tauri application"

/-- Events of the bootstrap's execution trace.  The alphabet also contains
thread-creation, lock-acquisition and cancellation events so that their
absence from the trace is expressible; the source performs none of them. -/
inductive Event where
  | buildDefault
  | pluginRegistered (p : Plugin)
  | contextGenerated (c : Context)
  | runInvoked (b : Builder) (c : Context)
  | panicked (msg : String)
  | exited
  | threadSpawned
  | lockAcquired
  | cancelRequested
deriving DecidableEq

/-- The step-by-step execution trace of the embedded `fn main()`: each
statement of the source contributes its event in order, followed by the
terminal event determined by the result of the `run` call. -/
def mainTrace {ε : Type} (fmtDebug : ε → String)
    (run : Builder → Context → Except ε Unit) : List Event :=
  let b0 := Builder.default
  let p := (SqlBuilder.default).build
  let b1 := b0.plugin p
  let c := generateContext
  [Event.buildDefault, Event.pluginRegistered p, Event.contextGenerated c,
   Event.runInvoked b1 c] ++
  match run b1 c with
  | .ok _ => [Event.exited]
  | .error e =>
      [Event.panicked ("error while running tauri application" ++ ": " ++ fmtDebug e)]

/-- The (builder, context) arguments of the `run` invocations recorded in a
trace. -/
def runInvocations (t : List Event) : List (Builder × Context) :=
  t.filterMap fun e =>
    match e with
    | .runInvoked b c => some (b, c)
    | _ => none

/-- The plugins whose registration is recorded in a trace. -/
def registeredPlugins (t : List Event) : List Plugin :=
  t.filterMap fun e =>
    match e with
    | .pluginRegistered p => some p
    | _ => none

/-- Whether an event is a panic. -/
def isPanic : Event → Bool
  | .panicked _ => true
  | _ => false

/-- Whether an event is an invocation of the framework's `run` routine. -/
def isRunInvoked : Event → Bool
  | .runInvoked _ _ => true
  | _ => false

/-- Whether an event is the normal-exit event. -/
def isExited : Event → Bool
  | .exited => true
  | _ => false

/-- A trace never retries after failure: every panic event in it is the
final event, with no further step of any kind after it. -/
def noRetryAfterFailure : List Event → Bool
  | [] => true
  | e :: rest => (!(isPanic e) || rest.isEmpty) && noRetryAfterFailure rest

/-- Once `run` is invoked, the only thing that follows in the trace is the
single terminal event: a normal exit or a panic. -/
def onlyTerminationAfterRun : List Event → Bool
  | [] => true
  | Event.runInvoked _ _ :: rest =>
      rest.length == 1 && rest.all (fun x => isPanic x || isExited x)
  | _ :: rest => onlyTerminationAfterRun rest

/-- The reference sequence of bootstrap steps named by the specification:
construct the default builder, register the plugin, obtain the generated
context, invoke `run` with that builder and context. -/
def referenceSequence : List Event :=
  [Event.buildDefault,
   Event.pluginRegistered ((SqlBuilder.default).build),
   Event.contextGenerated generateContext,
   Event.runInvoked ((Builder.default).plugin ((SqlBuilder.default).build))
     generateContext]

/-- The embedded `fn main()` exposed together with the process inputs an OS
delivers (command-line arguments and environment configuration).  The
source `main` has signature `fn main()` and parses neither, so the body
does not inspect `args` or `env`. -/
def mainWithInput {ε : Type} (fmtDebug : ε → String)
    (run : Builder → Context → Except ε Unit)
    (args : List String) (env : List (String × String)) : Outcome Unit :=
  rustExpect fmtDebug
    (run ((Builder.default).plugin ((SqlBuilder.default).build)) generateContext)
    "error while running tauri application"

/-- A build configuration of the crate, identified by whether
`debug_assertions` is on. -/
structure BuildConfig where
  debug_assertions : Bool
deriving DecidableEq

/-- The platform-presentation attribute applied at each build
configuration, from line 1 of the source:
`#![cfg_attr(not(debug_assertions), windows_subsystem = "windows")]`.
In a non-debug build the process presents as a windowed (GUI-subsystem)
application; in a debug build no subsystem override is applied and a
console is attached. -/
def windowsSubsystem (cfg : BuildConfig) : Option String :=
  if cfg.debug_assertions then none else some "windows"

/-- The embedded `fn main()` as compiled under a given build configuration.
The attribute on line 1 is the only conditionally compiled item in the
source and it changes no code in `main`, so the body does not inspect
`cfg`. -/
def mainAtBuild {ε : Type} (fmtDebug : ε → String)
    (run : Builder → Context → Except ε Unit) (cfg : BuildConfig) : Outcome Unit :=
  rustExpect fmtDebug
    (run ((Builder.default).plugin ((SqlBuilder.default).build)) generateContext)
    "error while running tauri application"

/-- C1: if the framework's run routine returns a failure outcome, the
process terminates fatally with an abort (non-zero) status and a diagnostic
that is exactly the fixed text "error while running tauri application"
followed by the underlying error detail; this holds for every possible
error value returned by the run call. -/
theorem run_failure_is_fatal_with_fixed_message {ε : Type}
    (fmtDebug : ε → String) (run : Builder → Context → Except ε Unit) (e : ε)
    (h : run ((Builder.default).plugin ((SqlBuilder.default).build)) generateContext
          = Except.error e) :
    main fmtDebug run
        = Outcome.panicked ("error while running tauri application" ++ ": " ++ fmtDebug e)
      ∧ (main fmtDebug run).isAbort = true := by
  simp [main, rustExpect, h, Outcome.isAbort]

/-- Witness for C1 at a concrete failing run routine. -/
theorem run_failure_is_fatal_with_fixed_message_witness :
    main (fun s : String => s) (fun _ _ => Except.error "boom")
        = Outcome.panicked ("error while running tauri application" ++ ": "
            ++ (fun s : String => s) "boom")
      ∧ (main (fun s : String => s) (fun _ _ => Except.error "boom")).isAbort = true :=
  run_failure_is_fatal_with_fixed_message (fun s : String => s)
    (fun _ _ => Except.error "boom") "boom" rfl

/-- C2: the fatal diagnostic is produced if and only if the run routine
reports failure; on success the process exits normally with no diagnostic
from this code, and there is no third behavior besides normal exit and
panic. -/
theorem panic_iff_run_failure {ε : Type} (fmtDebug : ε → String)
    (run : Builder → Context → Except ε Unit) :
    ((∃ m, main fmtDebug run = Outcome.panicked m)
        ↔ ∃ e, run ((Builder.default).plugin ((SqlBuilder.default).build))
                  generateContext = Except.error e)
      ∧ (main fmtDebug run = Outcome.ok ()
          ↔ run ((Builder.default).plugin ((SqlBuilder.default).build))
              generateContext = Except.ok ())
      ∧ (main fmtDebug run = Outcome.ok ()
          ∨ ∃ m, main fmtDebug run = Outcome.panicked m) := by
  cases hr : run ((Builder.default).plugin ((SqlBuilder.default).build))
      generateContext with
  | ok a => cases a; simp [main, rustExpect, hr]
  | error e => simp [main, rustExpect, hr]

/-- C3: at the moment the run routine is invoked, the builder passed to it
carries exactly one plugin registered by this code. -/
theorem exactly_one_plugin_registered_at_run {ε : Type} (fmtDebug : ε → String)
    (run : Builder → Context → Except ε Unit) :
    runInvocations (mainTrace fmtDebug run)
        = [(((Builder.default).plugin ((SqlBuilder.default).build)), generateContext)]
      ∧ (((Builder.default).plugin ((SqlBuilder.default).build)).plugins).length = 1 := by
  refine ⟨?_, rfl⟩
  cases hr : run ((Builder.default).plugin ((SqlBuilder.default).build))
      generateContext with
  | ok a => simp [mainTrace, runInvocations, hr]
  | error e => simp [mainTrace, runInvocations, hr]

/-- C4: the bootstrap performs exactly the reference sequence of steps, in
order — default builder construction, plugin registration, context
generation, run invocation — followed only by the terminal event (normal
exit or panic) and nothing else. -/
theorem bootstrap_is_reference_sequence {ε : Type} (fmtDebug : ε → String)
    (run : Builder → Context → Except ε Unit) :
    mainTrace fmtDebug run = referenceSequence ++ [Event.exited]
      ∨ ∃ m, mainTrace fmtDebug run = referenceSequence ++ [Event.panicked m] := by
  cases hr : run ((Builder.default).plugin ((SqlBuilder.default).build))
      generateContext with
  | ok a => left; simp [mainTrace, referenceSequence, hr]
  | error e =>
      right
      exact ⟨"error while running tauri application" ++ ": " ++ fmtDebug e,
        by simp [mainTrace, referenceSequence, hr]⟩

/-- C5: the one plugin passed to the builder is the value produced by the
SQL plugin builder's zero-argument default constructor followed by its
build method, with no other configuration applied in between. -/
theorem registered_plugin_is_default_sql_build {ε : Type} (fmtDebug : ε → String)
    (run : Builder → Context → Except ε Unit) :
    registeredPlugins (mainTrace fmtDebug run) = [(SqlBuilder.default).build]
      ∧ (SqlBuilder.default).build = Plugin.sql SqlBuilder.default := by
  refine ⟨?_, rfl⟩
  cases hr : run ((Builder.default).plugin ((SqlBuilder.default).build))
      generateContext with
  | ok a => simp [mainTrace, registeredPlugins, hr]
  | error e => simp [mainTrace, registeredPlugins, hr]

/-- C6: the bootstrap reads no input: two invocations differing only in
command-line arguments or environment configuration behave identically,
and both coincide with the embedded `main`. -/
theorem bootstrap_reads_no_input {ε : Type} (fmtDebug : ε → String)
    (run : Builder → Context → Except ε Unit)
    (args1 args2 : List String) (env1 env2 : List (String × String)) :
    mainWithInput fmtDebug run args1 env1 = mainWithInput fmtDebug run args2 env2
      ∧ mainWithInput fmtDebug run args1 env1 = main fmtDebug run :=
  ⟨rfl, rfl⟩

/-- C7: the debug and non-debug build configurations are behaviorally
equivalent — the embedded `main` is the same function in both — and the
conditional-compilation switch only selects windowed presentation in
non-debug builds versus console attachment in debug builds. -/
theorem build_configs_equivalent {ε : Type} (fmtDebug : ε → String)
    (run : Builder → Context → Except ε Unit) (cfg1 cfg2 : BuildConfig) :
    mainAtBuild fmtDebug run cfg1 = mainAtBuild fmtDebug run cfg2
      ∧ mainAtBuild fmtDebug run cfg1 = main fmtDebug run
      ∧ windowsSubsystem ⟨true⟩ = none
      ∧ windowsSubsystem ⟨false⟩ = some "windows" :=
  ⟨rfl, rfl, rfl, rfl⟩

/-- C8: fail-fast with no retry: in every execution the run routine is
invoked exactly once, and a failure (panic) event is never followed by any
further step — no second run attempt, fallback or recovery. -/
theorem run_invoked_once_never_retries {ε : Type} (fmtDebug : ε → String)
    (run : Builder → Context → Except ε Unit) :
    (runInvocations (mainTrace fmtDebug run)).length = 1
      ∧ noRetryAfterFailure (mainTrace fmtDebug run) = true := by
  cases hr : run ((Builder.default).plugin ((SqlBuilder.default).build))
      generateContext with
  | ok a =>
      constructor
      · simp [mainTrace, runInvocations, hr]
      · simp [mainTrace, hr, noRetryAfterFailure, isPanic]
  | error e =>
      constructor
      · simp [mainTrace, runInvocations, hr]
      · simp [mainTrace, hr, noRetryAfterFailure, isPanic]

/-- C9: the bootstrap creates no threads, locks or cancellation logic of
its own, and its single blocking suspension point is the run invocation,
after which control returns only for the terminal event (shutdown or fatal
startup error). -/
theorem no_concurrency_single_blocking_run {ε : Type} (fmtDebug : ε → String)
    (run : Builder → Context → Except ε Unit) :
    Event.threadSpawned ∉ mainTrace fmtDebug run
      ∧ Event.lockAcquired ∉ mainTrace fmtDebug run
      ∧ Event.cancelRequested ∉ mainTrace fmtDebug run
      ∧ (runInvocations (mainTrace fmtDebug run)).length = 1
      ∧ onlyTerminationAfterRun (mainTrace fmtDebug run) = true := by
  cases hr : run ((Builder.default).plugin ((SqlBuilder.default).build))
      generateContext with
  | ok a =>
      refine ⟨?_, ?_, ?_, ?_, ?_⟩ <;>
        simp [mainTrace, hr, runInvocations, onlyTerminationAfterRun, isPanic, isExited]
  | error e =>
      refine ⟨?_, ?_, ?_, ?_, ?_⟩ <;>
        simp [mainTrace, hr, runInvocations, onlyTerminationAfterRun, isPanic, isExited]

/-- C10: on failure the diagnostic arises from `Result::expect` panic
semantics: the message is exactly the fixed string, the `": "` separator,
and the Debug rendering of the error, and the termination is a panic, not
a normal-return exit. -/
theorem failure_diagnostic_via_expect_panic {ε : Type} (fmtDebug : ε → String)
    (run : Builder → Context → Except ε Unit) (e : ε)
    (h : run ((Builder.default).plugin ((SqlBuilder.default).build)) generateContext
          = Except.error e) :
    main fmtDebug run
        = rustExpect fmtDebug (Except.error e : Except ε Unit)
            "error while running tauri application"
      ∧ rustExpect fmtDebug (Except.error e : Except ε Unit)
            "error while running tauri application"
          = Outcome.panicked
              ("error while running tauri application" ++ ": " ++ fmtDebug e)
      ∧ main fmtDebug run ≠ Outcome.ok () := by
  refine ⟨by simp [main, h], rfl, ?_⟩
  simp [main, rustExpect, h]

/-- Witness for C10 at a concrete failing run routine. -/
theorem failure_diagnostic_via_expect_panic_witness :
    main (fun s : String => s) (fun _ _ => Except.error "no display")
        = rustExpect (fun s : String => s)
            (Except.error "no display" : Except String Unit)
            "error while running tauri application"
      ∧ rustExpect (fun s : String => s)
            (Except.error "no display" : Except String Unit)
            "error while running tauri application"
          = Outcome.panicked
              ("error while running tauri application" ++ ": "
                ++ (fun s : String => s) "no display")
      ∧ main (fun s : String => s) (fun _ _ => Except.error "no display")
          ≠ Outcome.ok () :=
  failure_diagnostic_via_expect_panic (fun s : String => s)
    (fun _ _ => Except.error "no display") "no display" rfl

end TauriTasks
